import Mathlib

/-!
Verification of the Tenant Database Registry and Router of the
`communications` repository against its natural-language specification.

The development shallowly embeds the relevant Python source:

* `communication/db_router.py` — the tenant context cell
  (`set_current_tenant` / `get_current_tenant`) and the
  `MultiTenantDatabaseRouter` decision functions (`_get_tenant_db`,
  `db_for_read`, `db_for_write`, `allow_migrate`);
* `communication/middleware.py` — `TenantMiddleware` (tenant extraction and
  the end-of-request clearing of the context);
* `communicationapp/mixins.py` — `RouterTenantContextMixin.finalize_response`;
* `api/utils.py` — `get_encryption_key`, `encrypt_password`,
  `decrypt_password` (the pass-through-on-failure variant);
* `communicationapp/utils.py` — `decrypt_password` (the raising variant);
* `config/models.py` — `SoftDeleteModel.delete` / `hard_delete` and the
  `UserDatabase` row shape;
* `api/views.py` — `RegisterDBAPIView.post`, the registration workflow.

Python dictionaries are association lists, the ambient tenant cell is
explicit state, exceptions are `Option`/`Except`, and the external world
(DNS, the Fernet primitive, psycopg2, the `migrate` management command) is
an explicit parameter or a record of outcome flags, so every definition is
executable on concrete inputs.
-/

/-! ## Tenant context (`communication/db_router.py`, lines 6-27)

`set_current_tenant` writes the same value into the `ContextVar` and into
the thread-local fallback; `get_current_tenant` prefers the `ContextVar`
when it is not `None` and otherwise reads the thread-local slot. -/

/-- The two storage cells backing the ambient tenant context: the
`ContextVar` and the `threading.local` fallback. `none` models Python
`None` / the attribute being absent. -/
structure TenantCtx where
  ctxVar : Option String
  threadLocal : Option String
deriving DecidableEq

/-- `set_current_tenant(tenant_id)`: writes `tenant_id` into both cells. -/
def set_current_tenant (v : Option String) (_s : TenantCtx) : TenantCtx :=
  { ctxVar := v, threadLocal := v }

/-- `get_current_tenant()`: the `ContextVar` if it is not `None`, else the
thread-local slot. -/
def get_current_tenant (s : TenantCtx) : Option String :=
  match s.ctxVar with
  | some t => some t
  | none => s.threadLocal

/-! ## Router (`communication/db_router.py`, lines 29-148) -/

/-- The apps that always use the master/default database
(`MultiTenantDatabaseRouter.master_apps`). -/
def masterApps : List String :=
  ["auth", "admin", "contenttypes", "sessions", "config", "messages"]

/-- The apps that use the main PostgreSQL database
(`MultiTenantDatabaseRouter.postgres_main_apps`). -/
def postgresMainApps : List String := ["databases"]

/-- The apps that use tenant-specific databases
(`MultiTenantDatabaseRouter.tenant_apps`). -/
def tenantApps : List String := ["api", "communicationapp"]

/-- `hints.get("tenant_db")` on the hints dictionary, modelled as an
association list. -/
def hintsGet (hints : List (String × String)) (k : String) : Option String :=
  match hints.find? (fun kv => kv.1 == k) with
  | some kv => some kv.2
  | none => none

/-- `MultiTenantDatabaseRouter._get_tenant_db(hints)`. The Python code
first consults the (truthy) `hints` dict for a truthy `tenant_db` entry,
then falls back to `get_current_tenant()`; a tenant id that is falsy
(`None` or the empty string) or equal to `"default"` yields `None`. The
second argument is the value of `get_current_tenant()`. -/
def get_tenant_db (hints : List (String × String)) (tenantId : Option String) :
    Option String :=
  let fromHints : Option String :=
    if hints.isEmpty then none
    else
      match hintsGet hints "tenant_db" with
      | some v => if v = "" then none else some v
      | none => none
  match fromHints with
  | some v => some v
  | none =>
    match tenantId with
    | some tid =>
      if tid = "" then none
      else if tid = "default" then none
      else some ("client_" ++ tid)
    | none => none

/-- `MultiTenantDatabaseRouter.db_for_read(model, **hints)`, as a function
of the model's `app_label`, the hints dict, and the ambient tenant value
(`get_current_tenant()`). -/
def db_for_read (appLabel : String) (hints : List (String × String))
    (tenantId : Option String) : String :=
  if masterApps.contains appLabel then "default"
  else if postgresMainApps.contains appLabel then "postgres_main"
  else if tenantApps.contains appLabel then
    match get_tenant_db hints tenantId with
    | some db => db
    | none => "default"
  else "default"

/-- `MultiTenantDatabaseRouter.db_for_write(model, **hints)`; the source
body is written out separately in the Python file, line for line the same
decision table as `db_for_read`. -/
def db_for_write (appLabel : String) (hints : List (String × String))
    (tenantId : Option String) : String :=
  if masterApps.contains appLabel then "default"
  else if postgresMainApps.contains appLabel then "postgres_main"
  else if tenantApps.contains appLabel then
    match get_tenant_db hints tenantId with
    | some db => db
    | none => "default"
  else "default"

/-- `MultiTenantDatabaseRouter.allow_migrate(db, app_label, ...)` (the
`model_name` and hints parameters are unused by the source body). -/
def allow_migrate (db : String) (appLabel : String) : Bool :=
  if masterApps.contains appLabel then db == "default"
  else if postgresMainApps.contains appLabel then db == "postgres_main"
  else if tenantApps.contains appLabel then
    if db == "default" then false else db.startsWith "client_"
  else db == "default"

/-! ## Middleware (`communication/middleware.py`) and mixin
(`communicationapp/mixins.py`) -/

/-- The three request surfaces `TenantMiddleware.process_request` looks at:
the `X-Tenant` header, the `tenant` query parameter and the
`HTTP_X_TENANT` META entry. -/
structure HttpRequest where
  headerXTenant : Option String
  getTenant : Option String
  metaHttpXTenant : Option String

/-- Python `a or b` on an optional string against a string fallback: a
missing or empty (falsy) value falls through to `b`. -/
def pyOrStr (a : Option String) (b : String) : String :=
  match a with
  | some s => if s = "" then b else s
  | none => b

/-- The tenant-id extraction chain of `process_request`:
`headers.get("X-Tenant") or GET.get("tenant") or META.get("HTTP_X_TENANT")
or "default"`. -/
def extractTenantId (r : HttpRequest) : String :=
  pyOrStr r.headerXTenant (pyOrStr r.getTenant (pyOrStr r.metaHttpXTenant "default"))

/-- `TenantMiddleware.process_request`: binds the extracted tenant id. -/
def processRequest (r : HttpRequest) (s : TenantCtx) : TenantCtx :=
  set_current_tenant (some (extractTenantId r)) s

/-- `TenantMiddleware.process_response`: clears the tenant context. -/
def processResponse (s : TenantCtx) : TenantCtx :=
  set_current_tenant none s

/-- `TenantMiddleware.__call__`: `process_request`, then `get_response`,
then `process_response`. Django wraps every middleware's `get_response`
in `convert_exception_to_response`, so an exception escaping the inner
handler reaches this middleware as an error response (modelled here as
status 500), never as a raised exception; the handler itself may read and
write the tenant context, so it is state-passing. The result is the final
context together with the response status. -/
def middlewareCall (handler : HttpRequest → TenantCtx → TenantCtx × Except String Nat)
    (r : HttpRequest) (s : TenantCtx) : TenantCtx × Nat :=
  let s1 := processRequest r s
  let res := handler r s1
  let resp : Nat :=
    match res.2 with
    | Except.ok code => code
    | Except.error _ => 500
  (processResponse res.1, resp)

/-- `RouterTenantContextMixin.finalize_response`: runs the superclass
finalizer (which may itself raise, modelled by `Except.error`) and, in a
`finally` block, clears the tenant context before the result — response or
in-flight exception — propagates. -/
def finalize_response (superFin : TenantCtx → TenantCtx × Except String Nat)
    (s : TenantCtx) : TenantCtx × Except String Nat :=
  let res := superFin s
  (set_current_tenant none res.1, res.2)

/-! ## Credential Vault (`api/utils.py`, `communicationapp/utils.py`)

The Fernet primitive lives in the external `cryptography` package, not in
this repository; it is modelled as explicit function parameters
`fenc, fdec : String → String → Option String` (key → text → result),
where `none` models a raised exception (`InvalidToken`, or a `Fernet(key)`
construction failure on a malformed key). -/

/-- Python truthiness of the configured `DB_ENCRYPTION_KEY`: absent or
empty counts as not configured. -/
def truthyKey (cfgKey : Option String) : Option String :=
  match cfgKey with
  | some k => if k = "" then none else some k
  | none => none

/-- `api.utils.get_encryption_key`: the configured `DB_ENCRYPTION_KEY` if
truthy, else a freshly generated key (the generated key is an argument,
since `Fernet.generate_key()` is external randomness). -/
def get_encryption_key (cfgKey : Option String) (generated : String) : String :=
  match truthyKey cfgKey with
  | some k => k
  | none => generated

/-- `api.utils.encrypt_password`: encrypt under `get_encryption_key`; any
exception is swallowed and the original password is returned. -/
def encrypt_password (fenc : String → String → Option String)
    (cfgKey : Option String) (generated : String) (p : String) : String :=
  match fenc (get_encryption_key cfgKey generated) p with
  | some c => c
  | none => p

/-- `api.utils.decrypt_password`: with a truthy `DB_ENCRYPTION_KEY`,
decrypt under it; otherwise fall back to the legacy key
`SECRET_KEY[:32]`. Every exception is swallowed and the ciphertext is
returned unchanged (`# Return original if decryption fails`). -/
def decrypt_password_api (fdec : String → String → Option String)
    (cfgKey : Option String) (secretKey : String) (enc : String) : String :=
  match truthyKey cfgKey with
  | some k =>
    match fdec k enc with
    | some p => p
    | none => enc
  | none =>
    match fdec (secretKey.take 32) enc with
    | some p => p
    | none => enc

/-- `communicationapp.utils.decrypt_password`: raises (models to
`Except.error`) when `DB_ENCRYPTION_KEY` is unset, and wraps any Fernet
failure in a raised `RuntimeError("Fernet decrypt failed: ...")`. -/
def decrypt_password_comm (fdec : String → String → Option String)
    (key : String) (enc : String) : Except String String :=
  if key = "" then
    Except.error "DB_ENCRYPTION_KEY not set; cannot decrypt db_password_encrypted"
  else
    match fdec key enc with
    | some p => Except.ok p
    | none => Except.error "Fernet decrypt failed"

/-! ## TenantRecord and soft delete (`config/models.py`) -/

/-- One row of the `UserDatabase` table (a `SoftDeleteModel`): primary key,
declared columns, and the soft-delete bookkeeping columns. Timestamps are
abstract `Nat` ticks. -/
structure TenantRow where
  id : Nat
  user_id : Nat
  username : String
  db_name : String
  db_user : String
  db_password : String
  db_host : String
  db_port : String
  db_type : String
  is_deleted : Bool
  deleted_at : Option Nat
deriving DecidableEq

/-- `SoftDeleteModel.delete` on one row: sets `is_deleted = True` and
`deleted_at = timezone.now()`, and saves with
`update_fields=["is_deleted", "deleted_at"]`, so every other column keeps
its value. -/
def softDeleteRow (now : Nat) (r : TenantRow) : TenantRow :=
  { r with is_deleted := true, deleted_at := some now }

/-- `SoftDeleteModel.delete` at table level: the matching row is updated in
place; no row is removed. -/
def tableSoftDelete (now : Nat) (rid : Nat) (tbl : List TenantRow) : List TenantRow :=
  tbl.map (fun r => if r.id == rid then softDeleteRow now r else r)

/-- `SoftDeleteModel.hard_delete` at table level: `super().delete()`, the
genuine row removal. -/
def tableHardDelete (rid : Nat) (tbl : List TenantRow) : List TenantRow :=
  tbl.filter (fun r => r.id != rid)

/-! ## Registration workflow (`api/views.py`, `RegisterDBAPIView.post`) -/

/-- The validated payload of a registration request
(`UserDatabaseSerializer.validated_data`). -/
structure RegRequest where
  user_id : Nat
  username : String
  db_name : String
  db_user : String
  db_password : String
  db_host : String
  db_port : String
  db_type : Option String
deriving DecidableEq

/-- Outcomes of the external steps the view performs, in source order:
serializer validation, `socket.gethostbyname`, `decrypt_password`,
`test_db_connection`, and the `migrate`/alias-setup `try` block. -/
structure RegEnv where
  valid : Bool
  hostResolves : Bool
  decryptOk : Bool
  connOk : Bool
  migrateOk : Bool
deriving DecidableEq

/-- The responses `RegisterDBAPIView.post` can return. -/
inductive RegResponse
  | validationError
  | duplicate
  | hostUnresolvable
  | decryptFailed
  | connectFailed
  | aliasExists
  | migrationFailed
  | created (a : String)
deriving DecidableEq

/-- The process-wide state the view touches: the `UserDatabase` table (on
the master database) plus the alias keys of `settings.DATABASES` and of
`connections.databases`. -/
structure RegState where
  table : List TenantRow
  databases : List String
  connDatabases : List String
deriving DecidableEq

/-- `db_alias = f"client_{user_id}"`. -/
def dbAlias (uid : Nat) : String := "client_" ++ toString uid

/-- `d.get("db_type") or "self_hosted"` (Python `or`, so an empty string
also falls back). -/
def regDbType (t : Option String) : String :=
  match t with
  | some s => if s = "" then "self_hosted" else s
  | none => "self_hosted"

/-- `RegisterDBAPIView.post`, step for step. Note that the duplicate check
`UserDatabase.objects.filter(user_id=user_id).exists()` uses the default
manager, which does not exclude soft-deleted rows, and that the cleanup
branch of the `try` calls `entry.delete()` — the `SoftDeleteModel`
override — then pops the alias from `settings.DATABASES` and from
`connections.databases`. -/
def registerDB (env : RegEnv) (now : Nat) (st : RegState) (req : RegRequest) :
    RegState × RegResponse :=
  if !env.valid then (st, RegResponse.validationError)
  else if st.table.any (fun r => r.user_id == req.user_id) then
    (st, RegResponse.duplicate)
  else if !env.hostResolves then (st, RegResponse.hostUnresolvable)
  else if !env.decryptOk then (st, RegResponse.decryptFailed)
  else if !env.connOk then (st, RegResponse.connectFailed)
  else if st.databases.contains (dbAlias req.user_id) then
    (st, RegResponse.aliasExists)
  else
    let newId := st.table.length + 1
    let row : TenantRow :=
      { id := newId, user_id := req.user_id, username := req.username,
        db_name := req.db_name, db_user := req.db_user,
        db_password := req.db_password, db_host := req.db_host,
        db_port := req.db_port, db_type := regDbType req.db_type,
        is_deleted := false, deleted_at := none }
    let st1 : RegState := { st with table := st.table ++ [row] }
    let st2 : RegState :=
      { st1 with
        databases := st1.databases ++ [dbAlias req.user_id],
        connDatabases := st1.connDatabases ++ [dbAlias req.user_id] }
    if env.migrateOk then (st2, RegResponse.created (dbAlias req.user_id))
    else
      let st3 : RegState :=
        { st2 with
          table := tableSoftDelete now newId st2.table,
          databases := st2.databases.filter (fun a => a != dbAlias req.user_id),
          connDatabases :=
            st2.connDatabases.filter (fun a => a != dbAlias req.user_id) }
      (st3, RegResponse.migrationFailed)

/-! ## Helper lemmas -/

/-- Appending an element not previously present and then filtering it out
restores the original list. -/
theorem filter_append_not_mem (l : List String) (a : String)
    (h : l.contains a = false) :
    (l ++ [a]).filter (fun x => x != a) = l := by
  induction l with
  | nil => simp
  | cons b t ih =>
    simp only [List.contains_cons, Bool.or_eq_false_iff] at h
    obtain ⟨h1, h2⟩ := h
    have hba : b ≠ a := by
      intro he
      rw [he] at h1
      simp at h1
    simp only [List.cons_append, List.filter_cons]
    have : (b != a) = true := by simp [hba]
    rw [this]
    simp only [if_true]
    rw [ih h2]

/-! ## C2 -/

/-- Claim C2: for every model in a tenant-scoped app (`api`,
`communicationapp`) with no hints given, `db_for_read` returns
`client_<tenant_context>` when the ambient tenant context is bound (a
truthy, non-empty value, matching the Python truthiness test) and not
`"default"`, and returns the default alias when the context is unbound or
equal to `"default"`. -/
theorem tenant_app_read_routing (app : String)
    (happ : app = "api" ∨ app = "communicationapp")
    (s : String) (hne : s ≠ "") (hnd : s ≠ "default") :
    db_for_read app [] (some s) = "client_" ++ s ∧
    db_for_read app [] none = "default" ∧
    db_for_read app [] (some "default") = "default" := by
  rcases happ with h | h <;> subst h <;>
    refine ⟨?_, ?_, ?_⟩ <;>
    simp [db_for_read, get_tenant_db, masterApps, postgresMainApps,
      tenantApps, hne, hnd]

/-- Witness for C2 at the concrete app `"api"` and tenant `"t1"`. -/
theorem tenant_app_read_routing_witness :
    db_for_read "api" [] (some "t1") = "client_" ++ "t1" ∧
    db_for_read "api" [] none = "default" ∧
    db_for_read "api" [] (some "default") = "default" :=
  tenant_app_read_routing "api" (Or.inl rfl) "t1" (by decide) (by decide)

/-! ## C3 -/

/-- Claim C3: for every model of a master-category app (`auth`, `admin`,
`contenttypes`, `sessions`, `config`, `messages`), `db_for_read` and
`db_for_write` return the default alias regardless of the bound tenant
context (and of any hints). -/
theorem master_app_routing (app : String)
    (h : masterApps.contains app = true)
    (hints : List (String × String)) (t : Option String) :
    db_for_read app hints t = "default" ∧
    db_for_write app hints t = "default" := by
  have h2 : app ∈ masterApps := by simpa using h
  constructor <;> simp [db_for_read, db_for_write, h2]

/-- Witness for C3 at the concrete app `"auth"` with a bound tenant and a
tenant-db hint. -/
theorem master_app_routing_witness :
    db_for_read "auth" [("tenant_db", "client_9")] (some "7") = "default" ∧
    db_for_write "auth" [("tenant_db", "client_9")] (some "7") = "default" :=
  master_app_routing "auth" (by decide) [("tenant_db", "client_9")] (some "7")

/-! ## C4 -/

/-- Claim C4: for every tenant-scoped app label, `allow_migrate` returns
`False` when the target database alias is `"default"`, and returns `True`
only when the target alias starts with `"client_"`. -/
theorem tenant_app_migrate_guard (app db : String)
    (happ : app = "api" ∨ app = "communicationapp") :
    (db = "default" → allow_migrate db app = false) ∧
    (allow_migrate db app = true → db.startsWith "client_" = true) := by
  rcases happ with h | h <;> subst h <;> constructor
  · intro hdb
    subst hdb
    simp [allow_migrate, masterApps, postgresMainApps, tenantApps]
  · intro hmig
    by_cases hd : db = "default"
    · subst hd
      simp [allow_migrate, masterApps, postgresMainApps, tenantApps] at hmig
    · simpa [allow_migrate, masterApps, postgresMainApps, tenantApps, hd]
        using hmig
  · intro hdb
    subst hdb
    simp [allow_migrate, masterApps, postgresMainApps, tenantApps]
  · intro hmig
    by_cases hd : db = "default"
    · subst hd
      simp [allow_migrate, masterApps, postgresMainApps, tenantApps] at hmig
    · simpa [allow_migrate, masterApps, postgresMainApps, tenantApps, hd]
        using hmig

/-- Witness for C4 at the concrete app `"api"` and alias `"client_5"`. -/
theorem tenant_app_migrate_guard_witness :
    ("client_5" = "default" → allow_migrate "client_5" "api" = false) ∧
    (allow_migrate "client_5" "api" = true →
      String.startsWith "client_5" "client_" = true) :=
  tenant_app_migrate_guard "api" "client_5" (Or.inl rfl)

/-! ## C9 -/

/-- Claim C9: for every model (app label) and every hints value,
`db_for_read` and `db_for_write` return the same database alias under any
tenant context. -/
theorem read_write_same_db (app : String) (hints : List (String × String))
    (t : Option String) :
    db_for_read app hints t = db_for_write app hints t := rfl

/-! ## C5 -/

/-- Counterexample to claim C5 as stated: with a configured key and a
ciphertext the Fernet primitive rejects (the model returns `none`,
i.e. `InvalidToken` is raised), `api.utils.decrypt_password` returns the
ciphertext unchanged instead of failing. -/
theorem decrypt_passthrough_counterexample :
    decrypt_password_api (fun _ _ => none) (some "key") "secretkey" "corrupt-token"
      = "corrupt-token" := rfl

/-- Claim C5 (amended): on malformed ciphertext,
`communicationapp.utils.decrypt_password` fails with a raised error, but
`api.utils.decrypt_password` swallows the failure and returns its input
unchanged (the pass-through flagged in the spec's design notes). -/
theorem decrypt_malformed_behavior (fdec : String → String → Option String)
    (key sk enc : String) (hk : key ≠ "") (hmal : fdec key enc = none) :
    decrypt_password_comm fdec key enc = Except.error "Fernet decrypt failed" ∧
    decrypt_password_api fdec (some key) sk enc = enc := by
  constructor
  · simp [decrypt_password_comm, hk, hmal]
  · simp [decrypt_password_api, truthyKey, hk, hmal]

/-- Witness for the amended C5 at a concrete key and a ciphertext every
decryption attempt rejects. -/
theorem decrypt_malformed_behavior_witness :
    decrypt_password_comm (fun _ _ => none) "K" "bad" =
      Except.error "Fernet decrypt failed" ∧
    decrypt_password_api (fun _ _ => none) (some "K") "SK" "bad" = "bad" :=
  decrypt_malformed_behavior (fun _ _ => none) "K" "SK" "bad" (by decide) rfl

/-! ## C6 -/

/-- Claim C6: with the primary encryption key configured (a truthy
`DB_ENCRYPTION_KEY`), for every non-empty password `p`,
`decrypt_password (encrypt_password p) = p`, given a Fernet model whose
decrypt inverts its encrypt under that key and whose encrypt succeeds on
`p` (both facts of the external `cryptography` library). -/
theorem encrypt_decrypt_roundtrip (fenc fdec : String → String → Option String)
    (k gen sk p : String) (hk : k ≠ "") (hp : p ≠ "")
    (hrt : ∀ q c, fenc k q = some c → fdec k c = some q)
    (henc : (fenc k p).isSome = true) :
    decrypt_password_api fdec (some k) sk
      (encrypt_password fenc (some k) gen p) = p := by
  obtain ⟨c, hc⟩ := Option.isSome_iff_exists.mp henc
  have hkey : truthyKey (some k) = some k := by simp [truthyKey, hk]
  have henc2 : encrypt_password fenc (some k) gen p = c := by
    simp [encrypt_password, get_encryption_key, hkey, hc]
  rw [henc2]
  have hdec := hrt p c hc
  simp [decrypt_password_api, hkey, hdec]

/-- Witness for C6 with a concrete (identity) Fernet model, key `"K"` and
password `"pw"`. -/
theorem encrypt_decrypt_roundtrip_witness :
    decrypt_password_api (fun _ c => some c) (some "K") "SK"
      (encrypt_password (fun _ q => some q) (some "K") "G" "pw") = "pw" :=
  encrypt_decrypt_roundtrip (fun _ q => some q) (fun _ c => some c)
    "K" "G" "SK" "pw" (by decide) (by decide)
    (fun q c h => by simp only at h; simp [h]) rfl

/-! ## Registration helper -/

/-- When the serializer accepts the payload and a row for the tenant id is
already present (soft-deleted or not — the default manager's filter does
not exclude soft-deleted rows), `RegisterDBAPIView.post` answers with the
duplicate error and leaves the state untouched. -/
theorem registerDB_duplicate_result (env : RegEnv) (now : Nat) (st : RegState)
    (req : RegRequest) (hv : env.valid = true)
    (hdup : st.table.any (fun r => r.user_id == req.user_id) = true) :
    registerDB env now st req = (st, RegResponse.duplicate) := by
  simp [registerDB, hv, hdup]

/-! ## C7 -/

/-- Claim C7: submitting a registration for a tenant id that already has a
TenantRecord fails with the duplicate-tenant error and performs no
mutation: the table, `settings.DATABASES` and `connections.databases` are
all returned unchanged. -/
theorem register_duplicate_no_mutation (env : RegEnv) (now : Nat) (st : RegState)
    (req : RegRequest) (hv : env.valid = true)
    (hdup : st.table.any (fun r => r.user_id == req.user_id) = true) :
    registerDB env now st req = (st, RegResponse.duplicate) :=
  registerDB_duplicate_result env now st req hv hdup

/-- Witness for C7: a second registration for tenant id 7 against a state
already holding a row for tenant 7. -/
theorem register_duplicate_no_mutation_witness :
    registerDB ⟨true, true, true, true, true⟩ 0
      ⟨[⟨1, 7, "u", "d", "du", "pw", "h", "5432", "self_hosted", false, none⟩], [], []⟩
      ⟨7, "u2", "d2", "du2", "pw2", "h2", "5432", none⟩ =
      (⟨[⟨1, 7, "u", "d", "du", "pw", "h", "5432", "self_hosted", false, none⟩], [], []⟩,
        RegResponse.duplicate) :=
  register_duplicate_no_mutation _ _ _ _ rfl (by decide)

/-! ## C8 -/

/-- Claim C8: at the end of every request's handling the ambient tenant
context is cleared, whatever the handler did to it and whether it
succeeded or raised: `TenantMiddleware.__call__` ends in
`process_response` (Django's `convert_exception_to_response` wrapper
turns handler exceptions into error responses before they reach the
middleware), and `RouterTenantContextMixin.finalize_response` clears in a
`finally` block even while an exception is propagating. -/
theorem tenant_context_cleared
    (handler : HttpRequest → TenantCtx → TenantCtx × Except String Nat)
    (r : HttpRequest) (s s2 : TenantCtx)
    (superFin : TenantCtx → TenantCtx × Except String Nat) :
    get_current_tenant (middlewareCall handler r s).1 = none ∧
    get_current_tenant (finalize_response superFin s2).1 = none :=
  ⟨rfl, rfl⟩

/-! ## C10 -/

/-- The row updated by `tableSoftDelete` keeps its primary key. -/
theorem softDelete_id (now : Nat) (rid : Nat) (x : TenantRow) :
    (if x.id == rid then softDeleteRow now x else x).id = x.id := by
  by_cases h : x.id == rid <;> simp [h, softDeleteRow]

/-- Claim C10: `delete()` on a `UserDatabase` record never removes the
row — it sets `is_deleted` to `True` and `deleted_at` to the current time
and leaves every other field unchanged, and at table level preserves the
row count and the set of present ids; only `hard_delete()` removes the
row. -/
theorem soft_delete_preserves_row (now : Nat) (r : TenantRow) (rid : Nat)
    (tbl : List TenantRow) :
    (softDeleteRow now r).is_deleted = true ∧
    (softDeleteRow now r).deleted_at = some now ∧
    (softDeleteRow now r).id = r.id ∧
    (softDeleteRow now r).user_id = r.user_id ∧
    (softDeleteRow now r).username = r.username ∧
    (softDeleteRow now r).db_name = r.db_name ∧
    (softDeleteRow now r).db_user = r.db_user ∧
    (softDeleteRow now r).db_password = r.db_password ∧
    (softDeleteRow now r).db_host = r.db_host ∧
    (softDeleteRow now r).db_port = r.db_port ∧
    (softDeleteRow now r).db_type = r.db_type ∧
    (tableSoftDelete now rid tbl).length = tbl.length ∧
    (∀ rid2, (tableSoftDelete now rid tbl).any (fun x => x.id == rid2) =
      tbl.any (fun x => x.id == rid2)) ∧
    (tableHardDelete rid tbl).all (fun x => x.id != rid) = true := by
  refine ⟨rfl, rfl, rfl, rfl, rfl, rfl, rfl, rfl, rfl, rfl, rfl, ?_, ?_, ?_⟩
  · simp [tableSoftDelete]
  · intro rid2
    induction tbl with
    | nil => rfl
    | cons a t ih =>
      simp only [tableSoftDelete, List.map_cons, List.any_cons] at ih ⊢
      rw [softDelete_id now rid a, ih]
  · simp only [tableHardDelete, List.all_eq_true]
    intro x hx
    exact (List.mem_filter.mp hx).2

/-! ## C1 -/

/-- Counterexample to claim C1 as stated: a registration of tenant id 7
that fails at the migration step leaves ONE row in the `UserDatabase`
table for that tenant id (the cleanup calls `entry.delete()`, the
`SoftDeleteModel` override, which only marks the row), and an immediately
repeated registration for the same tenant id fails with the duplicate
error instead of succeeding, because the duplicate check does not exclude
soft-deleted rows. -/
theorem register_migration_rollback_counterexample :
    ((registerDB ⟨true, true, true, true, false⟩ 0 ⟨[], [], []⟩
        ⟨7, "u7", "d7", "du7", "pw7", "h7", "5432", none⟩).1.table.length = 1) ∧
    ((registerDB ⟨true, true, true, true, true⟩ 1
        (registerDB ⟨true, true, true, true, false⟩ 0 ⟨[], [], []⟩
          ⟨7, "u7", "d7", "du7", "pw7", "h7", "5432", none⟩).1
        ⟨7, "u7", "d7", "du7", "pw7", "h7", "5432", none⟩).2 =
      RegResponse.duplicate) := by
  decide

/-- Claim C1 (amended): a registration that persists the TenantRecord and
then fails at the migration (or alias-setup) step removes the alias from
`settings.DATABASES` and from `connections.databases` (zero Connection
Registry entries), but leaves exactly one row for that tenant id in the
`UserDatabase` table, soft-deleted (`is_deleted=True`); an immediately
repeated registration for the same tenant id then fails with the
duplicate-tenant error and changes nothing. -/
theorem register_migration_rollback_amended (env envR : RegEnv) (now now2 : Nat)
    (st : RegState) (req : RegRequest)
    (hv : env.valid = true) (hh : env.hostResolves = true)
    (hd : env.decryptOk = true) (hc : env.connOk = true)
    (hm : env.migrateOk = false)
    (hnodup : st.table.any (fun r => r.user_id == req.user_id) = false)
    (hnoalias : st.databases.contains (dbAlias req.user_id) = false)
    (hnoalias2 : st.connDatabases.contains (dbAlias req.user_id) = false)
    (hvR : envR.valid = true) :
    (registerDB env now st req).2 = RegResponse.migrationFailed ∧
    (registerDB env now st req).1.databases = st.databases ∧
    (registerDB env now st req).1.connDatabases = st.connDatabases ∧
    (registerDB env now st req).1.table.length = st.table.length + 1 ∧
    (registerDB env now st req).1.table.any
      (fun r => r.user_id == req.user_id && r.is_deleted) = true ∧
    registerDB envR now2 (registerDB env now st req).1 req =
      ((registerDB env now st req).1, RegResponse.duplicate) := by
  have hmain : registerDB env now st req =
      ({ table := tableSoftDelete now (st.table.length + 1)
            (st.table ++
              [{ id := st.table.length + 1, user_id := req.user_id,
                 username := req.username, db_name := req.db_name,
                 db_user := req.db_user, db_password := req.db_password,
                 db_host := req.db_host, db_port := req.db_port,
                 db_type := regDbType req.db_type, is_deleted := false,
                 deleted_at := none }]),
         databases := (st.databases ++ [dbAlias req.user_id]).filter
            (fun a => a != dbAlias req.user_id),
         connDatabases := (st.connDatabases ++ [dbAlias req.user_id]).filter
            (fun a => a != dbAlias req.user_id) }, RegResponse.migrationFailed) := by
    have hnm : dbAlias req.user_id ∉ st.databases := by simpa using hnoalias
    simp [registerDB, hv, hh, hd, hc, hm, hnodup, hnm]
  have hanydel : (registerDB env now st req).1.table.any
      (fun r => r.user_id == req.user_id && r.is_deleted) = true := by
    rw [hmain]
    simp [tableSoftDelete, softDeleteRow]
  refine ⟨?_, ?_, ?_, ?_, hanydel, ?_⟩
  · rw [hmain]
  · rw [hmain]
    exact filter_append_not_mem st.databases (dbAlias req.user_id) hnoalias
  · rw [hmain]
    exact filter_append_not_mem st.connDatabases (dbAlias req.user_id) hnoalias2
  · rw [hmain]
    simp [tableSoftDelete]
  · have hdup2 : (registerDB env now st req).1.table.any
        (fun r => r.user_id == req.user_id) = true := by
      rw [hmain]
      simp [tableSoftDelete, softDeleteRow]
    exact registerDB_duplicate_result envR now2 (registerDB env now st req).1 req
      hvR hdup2

/-- Witness for the amended C1: tenant id 7 registered against an empty
state, with the migration step failing and an all-success retry. -/
theorem register_migration_rollback_amended_witness :
    (registerDB ⟨true, true, true, true, false⟩ 0 ⟨[], [], []⟩
        ⟨7, "w7", "d7", "du7", "pw7", "h7", "5432", none⟩).2 =
      RegResponse.migrationFailed ∧
    (registerDB ⟨true, true, true, true, false⟩ 0 ⟨[], [], []⟩
        ⟨7, "w7", "d7", "du7", "pw7", "h7", "5432", none⟩).1.databases =
      RegState.databases ⟨[], [], []⟩ ∧
    (registerDB ⟨true, true, true, true, false⟩ 0 ⟨[], [], []⟩
        ⟨7, "w7", "d7", "du7", "pw7", "h7", "5432", none⟩).1.connDatabases =
      RegState.connDatabases ⟨[], [], []⟩ ∧
    (registerDB ⟨true, true, true, true, false⟩ 0 ⟨[], [], []⟩
        ⟨7, "w7", "d7", "du7", "pw7", "h7", "5432", none⟩).1.table.length =
      (RegState.table ⟨[], [], []⟩).length + 1 ∧
    (registerDB ⟨true, true, true, true, false⟩ 0 ⟨[], [], []⟩
        ⟨7, "w7", "d7", "du7", "pw7", "h7", "5432", none⟩).1.table.any
      (fun r => r.user_id == RegRequest.user_id
        ⟨7, "w7", "d7", "du7", "pw7", "h7", "5432", none⟩ && r.is_deleted) = true ∧
    registerDB ⟨true, true, true, true, true⟩ 1
        (registerDB ⟨true, true, true, true, false⟩ 0 ⟨[], [], []⟩
          ⟨7, "w7", "d7", "du7", "pw7", "h7", "5432", none⟩).1
        ⟨7, "w7", "d7", "du7", "pw7", "h7", "5432", none⟩ =
      ((registerDB ⟨true, true, true, true, false⟩ 0 ⟨[], [], []⟩
          ⟨7, "w7", "d7", "du7", "pw7", "h7", "5432", none⟩).1,
        RegResponse.duplicate) :=
  register_migration_rollback_amended ⟨true, true, true, true, false⟩
    ⟨true, true, true, true, true⟩ 0 1 ⟨[], [], []⟩
    ⟨7, "w7", "d7", "du7", "pw7", "h7", "5432", none⟩
    rfl rfl rfl rfl rfl rfl rfl rfl rfl
